import Mathlib

/-!
Verification of the pysqlite SQLite dialect adapter
(`lib/sqlalchemy/dialects/sqlite/pysqlite.py`).

The development shallowly embeds the adapter logic: the connection URL
record, `create_connect_args`, the capability resolution performed in
`SQLite_pysqlite.__init__`, the `dbapi` driver loader, `is_disconnect`,
and `SQLite_pysqliteExecutionContext.post_exec`.  Python strings become
`String`, Python tuples of version numbers become `List Int`, Python
`None` becomes `Option.none`, and operations that can raise return
`Except`/`Option`.
-/

namespace Pysqlite

/-- Decidable equality for `Except`, used to evaluate the embedded
operations on concrete inputs. -/
instance {ε α : Type} [DecidableEq ε] [DecidableEq α] :
    DecidableEq (Except ε α) := fun a b =>
  match a, b with
  | .ok x, .ok y =>
    if h : x = y then .isTrue (by rw [h]) else .isFalse (by simp [h])
  | .ok _, .error _ => .isFalse (by simp)
  | .error _, .ok _ => .isFalse (by simp)
  | .error x, .error y =>
    if h : x = y then .isTrue (by rw [h]) else .isFalse (by simp [h])

/-! ### Generic string and list helpers -/

/-- Boolean test that `pat` occurs as a leading segment of `l`
(the model of a character-level starts-with check). -/
def startsWithL : List Char → List Char → Bool
  | [], _ => true
  | _ :: _, [] => false
  | a :: as, b :: bs => a == b && startsWithL as bs

/-- Boolean test that `pat` occurs as a contiguous segment of `l`;
this models the Python `in` operator on strings. -/
def hasSubL (pat : List Char) : List Char → Bool
  | [] => pat.isEmpty
  | c :: rest => startsWithL pat (c :: rest) || hasSubL pat rest

/-- Propositional form of substring containment: `sub` occurs
contiguously inside `s`. -/
def strContains (s sub : String) : Prop :=
  ∃ a b : List Char, s.data = a ++ sub.data ++ b

theorem startsWithL_iff (pat l : List Char) :
    startsWithL pat l = true ↔ ∃ b, l = pat ++ b := by
  induction pat generalizing l with
  | nil => simp [startsWithL]
  | cons a as ih =>
    cases l with
    | nil => simp [startsWithL]
    | cons c cs =>
      simp only [startsWithL, Bool.and_eq_true, beq_iff_eq, ih]
      constructor
      · rintro ⟨rfl, b, rfl⟩; exact ⟨b, rfl⟩
      · rintro ⟨b, h⟩
        injection h with h1 h2
        exact ⟨h1.symm, b, h2⟩

theorem hasSubL_iff (pat l : List Char) :
    hasSubL pat l = true ↔ ∃ a b, l = a ++ pat ++ b := by
  induction l with
  | nil =>
    simp only [hasSubL, List.isEmpty_iff]
    constructor
    · rintro rfl; exact ⟨[], [], rfl⟩
    · rintro ⟨a, b, h⟩
      rcases List.append_eq_nil.mp (List.append_eq_nil.mp h.symm).1 with ⟨-, h2⟩
      exact h2
  | cons c cs ih =>
    simp only [hasSubL, Bool.or_eq_true, startsWithL_iff, ih]
    constructor
    · rintro (⟨b, h⟩ | ⟨a, b, h⟩)
      · exact ⟨[], b, by simpa using h⟩
      · exact ⟨c :: a, b, by simp [h]⟩
    · rintro ⟨a, b, h⟩
      cases a with
      | nil => exact Or.inl ⟨b, by simpa using h⟩
      | cons x xs =>
        injection h with h1 h2
        exact Or.inr ⟨xs, b, h2⟩

/-! ### Python-style numeric parsing -/

/-- Accumulate a decimal numeral; fails on any non-digit character. -/
def digitsToNatAux : List Char → Nat → Option Nat
  | [], acc => some acc
  | c :: rest, acc =>
    if c.isDigit then digitsToNatAux rest (acc * 10 + (c.toNat - 48)) else none

/-- Parse a nonempty all-digit character list as a natural number. -/
def digitsToNat : List Char → Option Nat
  | [] => none
  | l => digitsToNatAux l 0

/-- The Python `int()` conversion on a character list: an optional sign
followed by at least one decimal digit; anything else raises (here:
`none`). -/
def pyIntL : List Char → Option Int
  | '-' :: rest => (digitsToNat rest).map (fun n => -(n : Int))
  | '+' :: rest => (digitsToNat rest).map (fun n => (n : Int))
  | l => (digitsToNat l).map (fun n => (n : Int))

/-- The Python `int()` conversion on strings. -/
def pyInt (s : String) : Option Int :=
  pyIntL s.data

/-- Split a character list at the first dot, keeping the remainder. -/
def splitDot : List Char → List Char × Option (List Char)
  | [] => ([], none)
  | c :: rest =>
    if c = '.' then ([], some rest)
    else
      let p := splitDot rest
      (c :: p.1, p.2)

/-- Exact value of a parsed decimal float: the number
`mantissa / 10 ^ frac_digits`.  The adapter never computes with the
timeout, it only converts and forwards it, so an exact fixed-point
representation is faithful. -/
structure FloatVal where
  mantissa : Int
  frac_digits : Nat
deriving Repr, DecidableEq

/-- The Python `float()` conversion on decimal strings: optional sign,
integer part, optional fractional part, at most one dot, at least one
digit overall. -/
def pyFloat (s : String) : Option FloatVal :=
  let sb : Int × List Char :=
    match s.data with
    | '-' :: r => (-1, r)
    | '+' :: r => (1, r)
    | l => (1, l)
  let p := splitDot sb.2
  match p.2 with
  | none => (digitsToNat p.1).map (fun n => ⟨sb.1 * (n : Int), 0⟩)
  | some fp =>
    if fp.contains '.' then none
    else if p.1.isEmpty && fp.isEmpty then none
    else
      match (if p.1.isEmpty then some 0 else digitsToNat p.1),
            (if fp.isEmpty then some 0 else digitsToNat fp) with
      | some i, some f =>
        some ⟨sb.1 * ((i : Int) * (10 : Int) ^ fp.length + (f : Int)), fp.length⟩
      | _, _ => none

/-! ### Python tuple comparison on version tuples -/

/-- Lexicographic `<` on integer tuples, as Python compares version
tuples; a strict initial segment is smaller. -/
def pyTupLt : List Int → List Int → Bool
  | [], [] => false
  | [], _ :: _ => true
  | _ :: _, [] => false
  | a :: as, b :: bs =>
    if a < b then true else if b < a then false else pyTupLt as bs

/-- Split a character list on the dot separator, keeping empty
components, as the Python split on the dot character does. -/
def splitOnDot : List Char → List (List Char)
  | [] => [[]]
  | c :: rest =>
    if c = '.' then [] :: splitOnDot rest
    else
      match splitOnDot rest with
      | [] => [[c]]
      | h :: t => (c :: h) :: t

/-- The version-string parser `vers` from `SQLite_pysqlite.__init__`:
split the dotted string and convert every component with `int()`;
a non-numeric component makes the whole conversion fail (Python raises
`ValueError`). -/
def vers (num : String) : Option (List Int) :=
  (splitOnDot num.data).mapM pyIntL

/-! ### Connection URL model -/

/-- Structured connection URL as supplied by the URL-parsing layer:
drivername, optional credentials and network location, optional
database path, and the query-string option mapping. -/
structure URL where
  drivername : String
  username : Option String
  password : Option String
  host : Option String
  port : Option Nat
  database : Option String
  query : List (String × String)
deriving Repr, DecidableEq

/-- Python truthiness of an optional string: `None` and the empty
string are falsy. -/
def optStrTruthy : Option String → Bool
  | none => false
  | some s => !(s == "")

/-- Python truthiness of an optional port number: `None` and `0` are
falsy. -/
def optNatTruthy : Option Nat → Bool
  | none => false
  | some n => !(n == 0)

/-- The guard of `create_connect_args`:
`url.username or url.password or url.host or url.port`. -/
def urlHasNetParts (u : URL) : Bool :=
  optStrTruthy u.username || optStrTruthy u.password ||
    optStrTruthy u.host || optNatTruthy u.port

/-- Modelled from the spec: rendering of a structured URL back to its
string form (the `%s` interpolation of the URL object in the error
message; the URL class itself lives outside this file).  Follows the
grammar `scheme://[user[:pass]@][host[:port]]/path?opt1=val1&...`. -/
def urlRender (u : URL) : String :=
  u.drivername ++ "://"
    ++ (match u.username with
        | none => ""
        | some n =>
          n ++ (match u.password with | none => "" | some p => ":" ++ p) ++ "@")
    ++ (match u.host with | none => "" | some h => h)
    ++ (match u.port with | none => "" | some p => ":" ++ toString p)
    ++ "/" ++ u.database.getD ""
    ++ (match u.query with
        | [] => ""
        | q => "?" ++ String.intercalate "&" (q.map fun kv => kv.1 ++ "=" ++ kv.2))

/-- The `ArgumentError` message raised by `create_connect_args` for a
URL carrying credentials, host or port. -/
def invalidUrlMsg (u : URL) : String :=
  "Invalid SQLite URL: " ++ urlRender u ++
    "\nValid SQLite URL forms are:\n sqlite:///:memory: (or, sqlite://)\n sqlite:///relative/path/to/file.db\n sqlite:////absolute/path/to/file.db"

/-! ### Query-option coercion -/

/-- A connect-argument value after coercion: the Python value stored in
the keyword-options mapping. -/
inductive PyVal where
  | str (s : String)
  | int (n : Int)
  | float (q : FloatVal)
  | bool (b : Bool)
deriving Repr, DecidableEq

/-- Target primitive types of the recognized options. -/
inductive CoerceTy where
  | str
  | int
  | float
  | bool
deriving Repr, DecidableEq

/-- The five recognized option keys and their declared types, exactly
as listed in the five `coerce_kw_type` calls of `create_connect_args`. -/
def keyTy (k : String) : Option CoerceTy :=
  if k = "timeout" then some .float
  else if k = "isolation_level" then some .str
  else if k = "detect_types" then some .int
  else if k = "check_same_thread" then some .bool
  else if k = "cached_statements" then some .int
  else none

/-- Lowercase an ASCII letter, identity elsewhere. -/
def lowerChar (c : Char) : Char :=
  if 65 ≤ c.toNat && c.toNat ≤ 90 then Char.ofNat (c.toNat + 32) else c

/-- Lowercase a string character by character. -/
def lowerStr (s : String) : String :=
  ⟨s.data.map lowerChar⟩

/-- Modelled from the spec: the boolean coercion used by
`util.coerce_kw_type` (defined outside this file) accepts common
truthy/falsy string spellings, case-insensitively, and rejects
anything else. -/
def asbool (s : String) : Option Bool :=
  let t := lowerStr s
  if t == "true" || t == "yes" || t == "on" || t == "y" || t == "t" || t == "1" then
    some true
  else if t == "false" || t == "no" || t == "off" || t == "n" || t == "f" || t == "0" then
    some false
  else none

/-- Modelled from the spec: convert one string option value to its
declared primitive type (`util.coerce_kw_type` is defined outside this
file); an unconvertible value is a failure. -/
def coerceStr (ty : CoerceTy) (v : String) : Option PyVal :=
  match ty with
  | .str => some (.str v)
  | .int => (pyInt v).map .int
  | .float => (pyFloat v).map .float
  | .bool => (asbool v).map .bool

/-- Modelled from the spec: apply the five `coerce_kw_type` calls to a
copy of the query mapping — entries under a recognized key are
converted to the declared type, absent keys stay absent, and
unrecognized keys pass through unchanged. -/
def coerceOpts (q : List (String × String)) : Option (List (String × PyVal)) :=
  q.mapM (fun kv =>
    match keyTy kv.1 with
    | none => some (kv.1, PyVal.str kv.2)
    | some ty => (coerceStr ty kv.2).map (fun v => (kv.1, v)))

/-! ### create_connect_args -/

/-- Errors `create_connect_args` can raise: the explicit
`exc.ArgumentError`, or the `ValueError` escaping from a failed value
conversion inside `coerce_kw_type`. -/
inductive SqlaError where
  | argumentError (msg : String)
  | valueError (msg : String)
deriving Repr, DecidableEq

/-- The method `SQLite_pysqlite.create_connect_args`: reject URLs with any truthy
network part, resolve the database path (`url.database` falling back to
the in-memory sentinel `:memory:`),
and coerce the copied query options.  Returns the single positional
argument list together with the keyword-options mapping. -/
def create_connect_args (url : URL) :
    Except SqlaError (List String × List (String × PyVal)) :=
  if urlHasNetParts url then
    .error (.argumentError (invalidUrlMsg url))
  else
    let filename :=
      match url.database with
      | none => ":memory:"
      | some s => if s == "" then ":memory:" else s
    match coerceOpts url.query with
    | none => .error (.valueError "invalid option value")
    | some opts => .ok ([filename], opts)

/-- State-passing reading of `create_connect_args`: alongside the
result it returns the final state of the input URL object.  The source
copies the query mapping (`opts = url.query.copy()`) before the
coercions mutate entries, so the URL object, query included, is
returned exactly as received. -/
def create_connect_args_st (url : URL) :
    Except SqlaError ((List String × List (String × PyVal)) × URL) :=
  if urlHasNetParts url then
    .error (.argumentError (invalidUrlMsg url))
  else
    let filename :=
      match url.database with
      | none => ":memory:"
      | some s => if s == "" then ":memory:" else s
    match coerceOpts url.query with
    | none => .error (.valueError "invalid option value")
    | some opts => .ok (([filename], opts), { url with query := url.query })

/-! ### Capability resolution (`SQLite_pysqlite.__init__`) -/

/-- The driver handle surface read during capability resolution:
the client-library version tuple, the engine version tuple, and the
engine version string. -/
structure Dbapi where
  version_info : List Int
  sqlite_version_info : List Int
  sqlite_version : String
deriving Repr, DecidableEq

/-- The Python 2 comparison `sqlite_ver < (2, 1, '3')` for an
all-integer `version_info` tuple: lexicographic on the first two
components, and in CPython 2 an integer always compares below the
string third component, so a tuple agreeing on `(2, 1)` is below the
threshold regardless of its third component. -/
def pysqliteOutdated : List Int → Bool
  | [] => true
  | a :: rest =>
    if a < 2 then true
    else if 2 < a then false
    else
      match rest with
      | [] => true
      | b :: _ => if b < 1 then true else if 1 < b then false else true

/-- The outcome of `SQLite_pysqlite.__init__` on the capability flags:
whether the out-of-date warning was emitted and the final values of the
two flags.  The base dialect leaves `supports_default_values` true
before this code runs (modelled from the spec: the base-class default
is defined outside this file, and the spec states the flag remains set
for new enough engines). -/
structure InitResult where
  supports_default_values : Bool
  supports_cast : Bool
  warned : Bool
deriving Repr, DecidableEq

/-- Capability resolution from `SQLite_pysqlite.__init__` with an
optional driver handle.  With a handle present it may warn about an
out-of-date client library, clears `supports_default_values` for engine
tuples below `(3, 3, 8)`, and sets `supports_cast` by comparing
`vers(sqlite_version)` against `vers("3.2.3")`; the `int()` calls
inside `vers` raise `ValueError` on a non-numeric component, which
surfaces as an error here. -/
def dialectInit (dbapi : Option Dbapi) : Except String InitResult :=
  match dbapi with
  | none =>
    .ok { supports_default_values := true, supports_cast := true, warned := false }
  | some d =>
    let warned := pysqliteOutdated d.version_info
    let sdv := if pyTupLt d.sqlite_version_info [3, 3, 8] then false else true
    match vers d.sqlite_version, vers "3.2.3" with
    | some v, some t =>
      .ok { supports_default_values := sdv, supports_cast := !pyTupLt v t,
            warned := warned }
    | _, _ => .error "invalid literal for int() with base 10"

/-! ### Driver loading (`SQLite_pysqlite.dbapi`) -/

/-- An import failure from attempting to load a driver module. -/
structure ImportError where
  msg : String
deriving Repr, DecidableEq

/-- The `dbapi` classmethod: try `pysqlite2.dbapi2` first; on
`ImportError` fall back to `sqlite3.dbapi2`; if that also fails,
re-raise the original error `e` from the first attempt.  The two
arguments are the outcomes the environment gives to the two import
statements. -/
def dbapi_load (pysqlite2 sqlite3 : Except ImportError String) :
    Except ImportError String :=
  match pysqlite2 with
  | .ok m => .ok m
  | .error e =>
    match sqlite3 with
    | .ok m => .ok m
    | .error _ => .error e

/-! ### Disconnect classification (`SQLite_pysqlite.is_disconnect`) -/

/-- Category of a caught driver exception: the driver exposes a
`ProgrammingError` class; every other exception type is some other
category. -/
inductive DBErrTy where
  | programmingError
  | operationalError
  | otherError
deriving Repr, DecidableEq

/-- A caught driver error: its exception category and its `str()`
message text. -/
structure DBError where
  ty : DBErrTy
  msg : String
deriving Repr, DecidableEq

/-- The message fragment identifying an operation on a closed handle. -/
def closedDbMsg : String := "Cannot operate on a closed database."

/-- The method `SQLite_pysqlite.is_disconnect`: true exactly for a
`ProgrammingError` whose message contains the closed-database text. -/
def is_disconnect (e : DBError) : Bool :=
  (e.ty == .programmingError) && hasSubL closedDbMsg.data e.msg.data

/-! ### Execution context (`SQLite_pysqliteExecutionContext.post_exec`) -/

/-- The slice of execution-context state `post_exec` reads and writes:
the insert/executemany flags, the `_last_inserted_ids` list (entries
may be Python `None`), and the `lastrowid` of the cursor. -/
structure ExecCtx where
  isinsert : Bool
  executemany : Bool
  last_inserted_ids : List (Option Int)
  cursor_lastrowid : Option Int
deriving Repr, DecidableEq

/-- The method `post_exec`: after a plain insert, when the last-inserted-ids list
is empty or starts with `None`, rebuild it as
`[cursor.lastrowid] + ids[1:]`; otherwise leave the context alone. -/
def post_exec (c : ExecCtx) : ExecCtx :=
  if c.isinsert && !c.executemany then
    if c.last_inserted_ids.length == 0 || c.last_inserted_ids.head? == some none then
      { c with last_inserted_ids := c.cursor_lastrowid :: c.last_inserted_ids.tail }
    else c
  else c

/-! ### Helper lemmas -/

set_option maxRecDepth 10000

theorem strContains_mono_left (pre t sub : String) (h : strContains t sub) :
    strContains (pre ++ t) sub := by
  obtain ⟨a, b, hab⟩ := h
  exact ⟨pre.data ++ a, b, by simp [String.data_append, hab]⟩

theorem strContains_of_hasSubL (t sub : String)
    (h : hasSubL sub.data t.data = true) : strContains t sub :=
  (hasSubL_iff sub.data t.data).mp h

/-- The parsed threshold `vers("3.2.3")` used for the cast capability. -/
theorem vers_threshold : vers "3.2.3" = some [3, 2, 3] := by decide

/-- Anatomy of a successful `create_connect_args` call: the guard was
false, the options coerced successfully, and the positional argument is
the resolved database name. -/
theorem create_connect_args_ok (url : URL) (r : List String × List (String × PyVal))
    (h : create_connect_args url = .ok r) :
    urlHasNetParts url = false ∧ coerceOpts url.query = some r.2 ∧
      r.1 = [match url.database with
             | none => ":memory:"
             | some s => if s == "" then ":memory:" else s] := by
  unfold create_connect_args at h
  by_cases hg : urlHasNetParts url = true
  · simp [hg] at h
  · rw [Bool.not_eq_true] at hg
    refine ⟨hg, ?_⟩
    rw [hg] at h
    simp only [Bool.false_eq_true, if_false] at h
    cases hc : coerceOpts url.query with
    | none => rw [hc] at h; simp at h
    | some opts =>
      rw [hc] at h
      simp only [Except.ok.injEq] at h
      subst h
      exact ⟨rfl, rfl⟩

/-- Lookup through the coercion pass: the option mapping after
`coerceOpts` holds, for each key, exactly the coerced form of the value
the query mapping held before. -/
theorem coerceOpts_lookup (q : List (String × String)) (opts : List (String × PyVal))
    (h : coerceOpts q = some opts) (k : String) :
    opts.lookup k = (q.lookup k).bind (fun v =>
      match keyTy k with
      | none => some (.str v)
      | some ty => coerceStr ty v) := by
  induction q generalizing opts with
  | nil =>
    simp only [coerceOpts, List.mapM_nil] at h
    simp at h
    subst h
    simp [List.lookup]
  | cons kv rest ih =>
    obtain ⟨kk, vv⟩ := kv
    simp only [coerceOpts, List.mapM_cons] at h
    cases hty : keyTy kk with
    | none =>
      simp only [hty] at h
      cases hr : coerceOpts rest with
      | none =>
        have hr' := hr
        simp only [coerceOpts] at hr'
        rw [hr'] at h
        simp at h
      | some opts' =>
        have hr' := hr
        simp only [coerceOpts] at hr'
        rw [hr'] at h
        simp at h
        subst h
        by_cases hk : k = kk
        · subst hk
          simp only [List.lookup, beq_self_eq_true]
          simp [hty]
        · have hb : (k == kk) = false := beq_false_of_ne hk
          simp only [List.lookup, hb]
          exact ih opts' hr
    | some ty =>
      simp only [hty] at h
      cases hcv : coerceStr ty vv with
      | none =>
        rw [hcv] at h
        simp at h
      | some pv =>
        rw [hcv] at h
        cases hr : coerceOpts rest with
        | none =>
          have hr' := hr
          simp only [coerceOpts] at hr'
          rw [hr'] at h
          simp at h
        | some opts' =>
          have hr' := hr
          simp only [coerceOpts] at hr'
          rw [hr'] at h
          simp at h
          subst h
          by_cases hk : k = kk
          · subst hk
            simp only [List.lookup, beq_self_eq_true]
            simp [hty, hcv]
          · have hb : (k == kk) = false := beq_false_of_ne hk
            simp only [List.lookup, hb]
            exact ih opts' hr

/-! ### Claim theorems -/

/-- C7: `is_disconnect` returns true exactly when the error is the
programming-error category of the driver and its message contains the
literal closed-database substring; in particular it is false for a
programming error with unrelated text and false for any other error
type. -/
theorem is_disconnect_characterization (e : DBError) :
    is_disconnect e = true ↔
      e.ty = .programmingError ∧ strContains e.msg closedDbMsg := by
  unfold is_disconnect
  rw [Bool.and_eq_true, beq_iff_eq]
  exact and_congr Iff.rfl (hasSubL_iff closedDbMsg.data e.msg.data)

/-- C8: the driver loader returns the preferred module when it loads,
falls back to the alternate module when only the preferred import
fails, and when both imports fail it surfaces the original error from
the preferred attempt. -/
theorem dbapi_load_order (p s : Except ImportError String) :
    (∀ m, p = .ok m → dbapi_load p s = .ok m) ∧
    (∀ e m, p = .error e → s = .ok m → dbapi_load p s = .ok m) ∧
    (∀ e f, p = .error e → s = .error f → dbapi_load p s = .error e) := by
  refine ⟨?_, ?_, ?_⟩
  · rintro m rfl; rfl
  · rintro e m rfl rfl; rfl
  · rintro e f rfl rfl; rfl

/-- Witness for C8 at concrete import outcomes: with both imports
failing, the surfaced error is the first one. -/
theorem dbapi_load_order_witness :
    dbapi_load (.error ⟨"No module named pysqlite2"⟩)
        (.error ⟨"No module named sqlite3"⟩) =
      .error ⟨"No module named pysqlite2"⟩ :=
  (dbapi_load_order _ _).2.2 _ _ rfl rfl

/-- C10: after a plain insert with an empty or `None`-headed
last-inserted-ids list, `post_exec` puts the cursor row id in front of
the unchanged tail; for a non-insert, an executemany, or a list with a
real first id, the context is untouched. -/
theorem post_exec_lastrowid (c : ExecCtx) :
    (c.isinsert = true → c.executemany = false →
      (c.last_inserted_ids = [] ∨ c.last_inserted_ids.head? = some none) →
        (post_exec c).last_inserted_ids =
            c.cursor_lastrowid :: c.last_inserted_ids.tail ∧
          (post_exec c).last_inserted_ids.tail = c.last_inserted_ids.tail) ∧
    ((c.isinsert = false ∨ c.executemany = true ∨
        (∃ x, c.last_inserted_ids.head? = some (some x))) →
      post_exec c = c) := by
  obtain ⟨ii, em, ids, lr⟩ := c
  constructor
  · rintro rfl rfl hids
    have hcond : (ids.length == 0 || ids.head? == some none) = true := by
      rcases hids with h | h
      · subst h; rfl
      · rw [h]; simp
    simp [post_exec, hcond]
  · rintro (rfl | rfl | ⟨x, hx⟩)
    · simp [post_exec]
    · simp [post_exec]
    · simp only [post_exec]
      cases ids with
      | nil => simp at hx
      | cons a t =>
        simp only [List.head?] at hx
        rw [Option.some.injEq] at hx
        subst hx
        simp [post_exec]

/-- Witness for C10 at a concrete context: a plain insert whose id list
starts with `None` gets the cursor row id in front while the tail entry
survives. -/
theorem post_exec_lastrowid_witness :
    (post_exec ⟨true, false, [none, some 7], some 42⟩).last_inserted_ids =
        some 42 :: [some 7] ∧
      (post_exec ⟨true, false, [none, some 7], some 42⟩).last_inserted_ids.tail =
        [some 7] :=
  (post_exec_lastrowid ⟨true, false, [none, some 7], some 42⟩).1 rfl rfl
    (Or.inr rfl)

/-- C1: `create_connect_args` raises the malformed-URL error exactly
when one of username, password, host, or port is truthy (non-empty,
respectively non-zero for the port); the message carries the offending
URL together with the three canonical accepted URL forms.  When all
four parts are absent or empty, no such error is raised. -/
theorem create_connect_args_rejects_network_urls (url : URL) :
    (∃ m, create_connect_args url = .error (.argumentError m) ∧
        strContains m (urlRender url) ∧
        strContains m "sqlite:///:memory:" ∧
        strContains m "sqlite:///relative/path/to/file.db" ∧
        strContains m "sqlite:////absolute/path/to/file.db") ↔
      urlHasNetParts url = true := by
  constructor
  · rintro ⟨m, hm, -⟩
    by_contra hg
    rw [Bool.not_eq_true] at hg
    unfold create_connect_args at hm
    rw [hg] at hm
    simp only [Bool.false_eq_true, if_false] at hm
    cases hc : coerceOpts url.query with
    | none => rw [hc] at hm; simp at hm
    | some opts => rw [hc] at hm; simp at hm
  · intro hg
    have hforms : ∀ f : String,
        hasSubL f.data ("\nValid SQLite URL forms are:\n sqlite:///:memory: (or, sqlite://)\n sqlite:///relative/path/to/file.db\n sqlite:////absolute/path/to/file.db" : String).data = true →
        strContains (invalidUrlMsg url) f := by
      intro f hf
      exact strContains_mono_left "Invalid SQLite URL: " _ f
        (strContains_mono_left (urlRender url) _ f
          (strContains_of_hasSubL _ f hf))
    refine ⟨invalidUrlMsg url, ?_, ?_, ?_, ?_, ?_⟩
    · simp [create_connect_args, hg]
    · exact ⟨"Invalid SQLite URL: ".data,
        ("\nValid SQLite URL forms are:\n sqlite:///:memory: (or, sqlite://)\n sqlite:///relative/path/to/file.db\n sqlite:////absolute/path/to/file.db" : String).data,
        by simp [invalidUrlMsg, String.data_append]⟩
    · exact hforms _ (by decide)
    · exact hforms _ (by decide)
    · exact hforms _ (by decide)

/-- C2: a successful `create_connect_args` returns exactly one
positional argument; an empty or absent database path resolves to the
in-memory sentinel, any other path is passed through exactly as given,
and a literal `:memory:` path yields the same sentinel value as an
empty path. -/
theorem create_connect_args_database_resolution (url : URL)
    (r : List String × List (String × PyVal))
    (h : create_connect_args url = .ok r) :
    (∀ s, url.database = some s → s ≠ "" → r.1 = [s]) ∧
    ((url.database = none ∨ url.database = some "" ∨
        url.database = some ":memory:") → r.1 = [":memory:"]) := by
  obtain ⟨-, -, hfn⟩ := create_connect_args_ok url r h
  constructor
  · rintro s hs hne
    rw [hs] at hfn
    have hb : (s == "") = false := beq_false_of_ne hne
    simp only [hb, Bool.false_eq_true, if_false] at hfn
    exact hfn
  · rintro (hd | hd | hd) <;> rw [hd] at hfn <;>
      simpa using hfn

/-- Witness for C2 at concrete URLs: a `:memory:` path resolves to the
sentinel, and a filesystem path passes through unchanged. -/
theorem create_connect_args_database_resolution_witness :
    (([":memory:"], ([] : List (String × PyVal))) :
        List String × List (String × PyVal)).1 = [":memory:"] ∧
      ((["/a/b.db"], ([] : List (String × PyVal))) :
        List String × List (String × PyVal)).1 = ["/a/b.db"] :=
  ⟨(create_connect_args_database_resolution
      ⟨"sqlite", none, none, none, none, some ":memory:", []⟩
      ([":memory:"], []) (by decide)).2 (Or.inr (Or.inr rfl)),
   (create_connect_args_database_resolution
      ⟨"sqlite", none, none, none, none, some "/a/b.db", []⟩
      (["/a/b.db"], []) (by decide)).1 "/a/b.db" rfl (by decide)⟩

/-- C3: the coercion pass converts each recognized key present in the
query to its declared type (`timeout` to float, `isolation_level` to
string, `detect_types` to int, `check_same_thread` to bool,
`cached_statements` to int), leaves unrecognized keys as strings,
omits absent keys, and the boolean coercion accepts the common
spellings so that `false` maps to `false` and `true`/`1` map to
`true`. -/
theorem create_connect_args_option_coercion (url : URL)
    (r : List String × List (String × PyVal))
    (h : create_connect_args url = .ok r) :
    (∀ k, keyTy k = none →
        r.2.lookup k = (url.query.lookup k).map PyVal.str) ∧
    (∀ k, url.query.lookup k = none → r.2.lookup k = none) ∧
    (∀ s b, url.query.lookup "check_same_thread" = some s → asbool s = some b →
        r.2.lookup "check_same_thread" = some (.bool b)) ∧
    (∀ s x, url.query.lookup "timeout" = some s → pyFloat s = some x →
        r.2.lookup "timeout" = some (.float x)) ∧
    (∀ s x, url.query.lookup "detect_types" = some s → pyInt s = some x →
        r.2.lookup "detect_types" = some (.int x)) ∧
    (∀ s x, url.query.lookup "cached_statements" = some s → pyInt s = some x →
        r.2.lookup "cached_statements" = some (.int x)) ∧
    (∀ s, url.query.lookup "isolation_level" = some s →
        r.2.lookup "isolation_level" = some (.str s)) ∧
    asbool "false" = some false ∧ asbool "true" = some true ∧
    asbool "1" = some true := by
  obtain ⟨-, hco, -⟩ := create_connect_args_ok url r h
  have hl := coerceOpts_lookup url.query r.2 hco
  have hk1 : keyTy "check_same_thread" = some .bool := by decide
  have hk2 : keyTy "timeout" = some .float := by decide
  have hk3 : keyTy "detect_types" = some .int := by decide
  have hk4 : keyTy "cached_statements" = some .int := by decide
  have hk5 : keyTy "isolation_level" = some .str := by decide
  refine ⟨?_, ?_, ?_, ?_, ?_, ?_, ?_, by decide, by decide, by decide⟩
  · intro k hk
    rw [hl k, hk]
    cases url.query.lookup k <;> simp
  · intro k hk
    rw [hl k, hk]
    rfl
  · intro s b hs hb
    rw [hl _, hs, hk1]
    simp [coerceStr, hb]
  · intro s x hs hx
    rw [hl _, hs, hk2]
    simp [coerceStr, hx]
  · intro s x hs hx
    rw [hl _, hs, hk3]
    simp [coerceStr, hx]
  · intro s x hs hx
    rw [hl _, hs, hk4]
    simp [coerceStr, hx]
  · intro s hs
    rw [hl _, hs, hk5]
    simp [coerceStr]

/-- Witness for C3 on a concrete URL exercising all five recognized
keys and one unrecognized key. -/
theorem create_connect_args_option_coercion_witness :
    List.lookup "check_same_thread"
        [("timeout", PyVal.float ⟨25, 1⟩), ("isolation_level", PyVal.str "SER"),
         ("detect_types", PyVal.int 1), ("check_same_thread", PyVal.bool false),
         ("cached_statements", PyVal.int 100), ("foo", PyVal.str "bar")] =
      some (PyVal.bool false) :=
  (create_connect_args_option_coercion
      ⟨"sqlite", none, none, none, none, some "db",
        [("timeout", "2.5"), ("isolation_level", "SER"), ("detect_types", "1"),
         ("check_same_thread", "false"), ("cached_statements", "100"),
         ("foo", "bar")]⟩
      (["db"],
        [("timeout", PyVal.float ⟨25, 1⟩), ("isolation_level", PyVal.str "SER"),
         ("detect_types", PyVal.int 1), ("check_same_thread", PyVal.bool false),
         ("cached_statements", PyVal.int 100), ("foo", PyVal.str "bar")])
      (by decide)).2.2.1 "false" false (by decide) (by decide)

/-- C4: with a driver handle present, capability resolution clears the
default-values flag exactly when the engine version tuple is below
`(3, 3, 8)`; otherwise the flag keeps its base-class value true. -/
theorem init_supports_default_values (d : Dbapi) (r : InitResult)
    (h : dialectInit (some d) = .ok r) :
    r.supports_default_values = false ↔
      pyTupLt d.sqlite_version_info [3, 3, 8] = true := by
  simp only [dialectInit] at h
  cases hv : vers d.sqlite_version with
  | none => rw [hv, vers_threshold] at h; simp at h
  | some v =>
    rw [hv, vers_threshold] at h
    simp only [Except.ok.injEq] at h
    subst h
    cases hlt : pyTupLt d.sqlite_version_info [3, 3, 8] <;> simp [hlt]

/-- Witness for C4: engine tuple `(3, 3, 0)` clears the flag and
`(3, 8, 0)` keeps it set. -/
theorem init_supports_default_values_witness :
    (InitResult.mk false true false).supports_default_values = false ∧
      ¬ (InitResult.mk true true false).supports_default_values = false :=
  ⟨(init_supports_default_values ⟨[2, 5, 0], [3, 3, 0], "3.3.0"⟩ _
      (by decide)).mpr (by decide),
   fun hc => by
    have := (init_supports_default_values ⟨[2, 5, 0], [3, 8, 0], "3.8.0"⟩ _
      (by decide)).mp hc
    exact absurd this (by decide)⟩

/-- C5: capability resolution sets the cast flag exactly when either no
driver handle is present or the parsed dotted engine version compares
at least the parsed threshold `3.2.3` lexicographically; `3.2.3` itself
is included and `3.2.2` is not. -/
theorem init_supports_cast (dbapi : Option Dbapi) (r : InitResult)
    (h : dialectInit dbapi = .ok r) :
    r.supports_cast = true ↔
      (dbapi = none ∨ ∃ d v, dbapi = some d ∧ vers d.sqlite_version = some v ∧
        pyTupLt v [3, 2, 3] = false) := by
  cases dbapi with
  | none =>
    simp only [dialectInit, Except.ok.injEq] at h
    subst h
    simp
  | some d =>
    simp only [dialectInit] at h
    cases hv : vers d.sqlite_version with
    | none => rw [hv, vers_threshold] at h; simp at h
    | some v =>
      rw [hv, vers_threshold] at h
      simp only [Except.ok.injEq] at h
      subst h
      constructor
      · intro hc
        refine Or.inr ⟨d, v, rfl, hv, ?_⟩
        simp only at hc
        rwa [Bool.not_eq_true'] at hc
      · rintro (hnone | ⟨d', v', hdd, hv', hlt⟩)
        · exact absurd hnone (by simp)
        · injection hdd with hd'
          subst hd'
          rw [hv] at hv'
          injection hv' with hvv
          subst hvv
          simp [hlt]

/-- Witness for C5: engine version string `3.2.3` sets the cast flag,
and `3.2.2` leaves it cleared. -/
theorem init_supports_cast_witness :
    (InitResult.mk false true false).supports_cast = true ∧
      ¬ (InitResult.mk false false false).supports_cast = true :=
  ⟨(init_supports_cast (some ⟨[2, 5, 0], [3, 2, 3], "3.2.3"⟩) _
      (by decide)).mpr
      (Or.inr ⟨⟨[2, 5, 0], [3, 2, 3], "3.2.3"⟩, [3, 2, 3], rfl, by decide,
        by decide⟩),
   fun hc => by
    rcases (init_supports_cast (some ⟨[2, 5, 0], [3, 2, 2], "3.2.2"⟩) _
        (by decide)).mp hc with hnone | ⟨d', v', hdd, hv', hlt⟩
    · exact absurd hnone (by simp)
    · injection hdd with hd'
      subst hd'
      have : v' = [3, 2, 2] := by
        have h322 : vers "3.2.2" = some [3, 2, 2] := by decide
        rw [h322] at hv'
        injection hv' with hvv
        exact hvv.symm
      subst this
      exact absurd hlt (by decide)⟩

/-- C6 counterexample: capability resolution is not total in the
reported engine version string — a non-numeric dot component makes the
`int()` conversion inside `vers` raise, so dialect construction fails
rather than completing. -/
theorem dialect_init_raises_on_nonnumeric_engine_version :
    dialectInit (some ⟨[2, 5, 0], [3, 5, 9], "3.5.9-beta"⟩) =
      .error "invalid literal for int() with base 10" := by decide

/-- C6 amended: capability resolution never fails when no driver handle
is present, and with a handle it never fails provided every
dot-separated component of the reported engine version string parses as
an integer; in particular an out-of-date client-library version only
yields a warning, never a failure. -/
theorem dialect_init_total_on_numeric_versions (dbapi : Option Dbapi)
    (h : ∀ d, dbapi = some d → (vers d.sqlite_version).isSome = true) :
    ∃ r, dialectInit dbapi = .ok r := by
  cases dbapi with
  | none => exact ⟨_, rfl⟩
  | some d =>
    have hd := h d rfl
    cases hv : vers d.sqlite_version with
    | none => rw [hv] at hd; simp at hd
    | some v =>
      refine ⟨⟨if pyTupLt d.sqlite_version_info [3, 3, 8] then false else true,
        !pyTupLt v [3, 2, 3], pysqliteOutdated d.version_info⟩, ?_⟩
      simp only [dialectInit]
      rw [hv, vers_threshold]

/-- Witness for the amended C6: an out-of-date client library together
with a numeric engine version still completes construction (with the
warning recorded). -/
theorem dialect_init_total_on_numeric_versions_witness :
    ∃ r, dialectInit (some ⟨[2, 0, 0], [3, 8, 0], "3.8.0"⟩) = .ok r :=
  dialect_init_total_on_numeric_versions _
    (fun d hd => by injection hd with h1; rw [← h1]; decide)

/-- C9: `create_connect_args` is deterministic in its input URL, and
its state-passing reading returns the input URL object unchanged —
the coercions act on a copy of the query mapping — while producing the
same connect arguments as the pure reading. -/
theorem create_connect_args_purity (u1 u2 : URL) (h : u1 = u2) :
    create_connect_args u1 = create_connect_args u2 ∧
    (∀ res u', create_connect_args_st u1 = .ok (res, u') →
        u' = u1 ∧ create_connect_args u1 = .ok res) := by
  constructor
  · rw [h]
  · intro res u' hst
    unfold create_connect_args_st at hst
    unfold create_connect_args
    by_cases hg : urlHasNetParts u1 = true
    · rw [hg] at hst; simp at hst
    · rw [Bool.not_eq_true] at hg
      rw [hg] at hst
      simp only [Bool.false_eq_true, if_false] at hst
      cases hc : coerceOpts u1.query with
      | none => rw [hc] at hst; simp at hst
      | some opts =>
        rw [hc] at hst
        have hpair := Except.ok.inj hst
        have hu : ({ u1 with query := u1.query } : URL) = u' :=
          congrArg Prod.snd hpair
        have hres := congrArg Prod.fst hpair
        refine ⟨hu.symm.trans rfl, ?_⟩
        rw [hg]
        simp only [Bool.false_eq_true, if_false]
        exact congrArg Except.ok hres

/-- Witness for C9 at a concrete URL with a coerced option. -/
theorem create_connect_args_purity_witness :
    (⟨"sqlite", none, none, none, none, some "f.db",
        [("check_same_thread", "false")]⟩ : URL) =
      ⟨"sqlite", none, none, none, none, some "f.db",
        [("check_same_thread", "false")]⟩ ∧
    create_connect_args
        ⟨"sqlite", none, none, none, none, some "f.db",
          [("check_same_thread", "false")]⟩ =
      .ok (["f.db"], [("check_same_thread", PyVal.bool false)]) :=
  (create_connect_args_purity _ _ rfl).2
    (["f.db"], [("check_same_thread", PyVal.bool false)])
    ⟨"sqlite", none, none, none, none, some "f.db",
      [("check_same_thread", "false")]⟩
    (by decide)

end Pysqlite
